import Mathlib

/-!
Shallow embedding of the cogment-model-registry gRPC service layer
(`grpcservers/modelRegistryServer.go`) and the backend data model
(`backend/types.go`), with theorems settling the frozen claims about the
specification.  Machine integers are modelled as `Nat`/`Int`; byte buffers as
`List Nat`; Go maps as association lists; gRPC streams as Lean lists (the
empty tail standing for the transport's end-of-stream signal `io.EOF`).
-/

namespace ModelRegistry

/-! ### Data model (`backend/types.go`) -/

/-- Embeds `backend.ModelInfo`. -/
structure ModelInfo where
  modelID : String
  latestVersionNumber : Nat
  userData : List (String × String)
  deriving Repr, DecidableEq

/-- Embeds `backend.VersionInfo` (timestamps as nanoseconds since epoch). -/
structure VersionInfo where
  modelID : String
  versionNumber : Nat
  creationTimestamp : Nat
  archived : Bool
  dataHash : String
  dataSize : Nat
  userData : List (String × String)
  deriving Repr, DecidableEq

/-- Embeds `backend.VersionArgs`. -/
structure VersionArgs where
  versionNumber : Nat
  creationTimestamp : Nat
  archived : Bool
  dataHash : String
  data : List Nat
  userData : List (String × String)
  deriving Repr, DecidableEq

/-- Embeds Go's `%q` formatting of a string value (for strings that need no
escaping, which is all this development uses). -/
def goQuote (s : String) : String := "\"" ++ s ++ "\""

/-- Embeds `UnknownModelError.Error()`:
`fmt.Sprintf("no model %q found", e.ModelID)`. -/
def unknownModelErrorMessage (modelID : String) : String :=
  "no model " ++ goQuote modelID ++ " found"

/-- Embeds the `VersionNumber <= 0` branch of `UnknownModelVersionError.Error()`:
`fmt.Sprintf("model %q doesn't have any version yet", e.ModelID)`. -/
def noVersionYetMessage (modelID : String) : String :=
  "model " ++ goQuote modelID ++ " doesn't have any version yet"

/-- Embeds the positive branch of `UnknownModelVersionError.Error()`:
`fmt.Sprintf("no version \"%d\" for model %q found", ...)`. -/
def missingVersionMessage (modelID : String) (versionNumber : Int) : String :=
  "no version \"" ++ toString versionNumber ++ "\" for model " ++
    goQuote modelID ++ " found"

/-- Embeds `UnknownModelVersionError.Error()` (the `VersionNumber` field is a
Go `int`, hence `Int`). -/
def unknownModelVersionErrorMessage (modelID : String) (versionNumber : Int) : String :=
  if versionNumber ≤ 0 then noVersionYetMessage modelID
  else missingVersionMessage modelID versionNumber

/-- Embeds the error values a backend call can return: the two typed errors of
`backend/types.go` plus an opaque error with its message text. -/
inductive BackendError where
  | unknownModel (modelID : String)
  | unknownModelVersion (modelID : String) (versionNumber : Int)
  | other (msg : String)
  deriving Repr, DecidableEq

/-- Embeds `err.Error()` on a backend error. -/
def backendErrorMessage : BackendError → String
  | .unknownModel modelID => unknownModelErrorMessage modelID
  | .unknownModelVersion modelID versionNumber =>
      unknownModelVersionErrorMessage modelID versionNumber
  | .other msg => msg

/-! ### gRPC status codes -/

/-- The gRPC status codes used by `modelRegistryServer.go`. -/
inductive GrpcCode where
  | invalidArgument
  | notFound
  | internal
  deriving Repr, DecidableEq

/-- A status error as produced by `status.Errorf(code, format, args...)`. -/
structure StatusError where
  code : GrpcCode
  msg : String
  deriving Repr, DecidableEq

/-! ### Integrity codec -/

/-- Modelled from the spec: `backend.ComputeSHA256Hash` (the Integrity Codec of
spec section 4.4) is not under `src/`; the spec says it computes a hex-encoded
cryptographic content hash over a whole byte buffer, never incrementally.  It
is modelled as an arbitrary deterministic, computable digest of the buffer;
the claims depend only on the same function being used for verification and
for the stored metadata. -/
def ComputeSHA256Hash (data : List Nat) : String :=
  "h" ++ toString (data.foldl (fun h b => h * 257 + b % 256 + 1) 7)

/-! ### Wire messages for CreateVersion -/

/-- Embeds `grpcapi.ModelVersionInfo` as carried in the CreateVersion header
(`versionNumber` is a `uint32`, sizes `uint64`, timestamp nanoseconds). -/
structure PbVersionInfo where
  modelId : String
  versionNumber : Nat
  creationTimestamp : Nat
  archived : Bool
  dataHash : String
  dataSize : Nat
  userData : List (String × String)
  deriving Repr, DecidableEq

/-- Embeds one `CreateVersionRequestChunk`: `header` flattens
`Header{version_info}`, `body` flattens `Body{data_chunk}`; `none` models the
corresponding getter returning `nil`. -/
structure CreateVersionRequestChunk where
  header : Option PbVersionInfo
  body : Option (List Nat)
  deriving Repr, DecidableEq

/-- Embeds `createPbModelVersionInfo` (`modelRegistryServer.go:45`); the
`uint32` conversion of the version number is the reduction mod `2^32`. -/
def createPbModelVersionInfo (vi : VersionInfo) : PbVersionInfo :=
  { modelId := vi.modelID
    versionNumber := vi.versionNumber % 2 ^ 32
    creationTimestamp := vi.creationTimestamp
    archived := vi.archived
    dataHash := vi.dataHash
    dataSize := vi.dataSize
    userData := vi.userData }

/-! ### CreateVersion (`modelRegistryServer.go:159-229`) -/

/-- The message of the size-mismatch rejection at end-of-stream
(`modelRegistryServer.go:185`). -/
def sizeMismatchMessage (expected received : Nat) : String :=
  "stream ended while having not received the expected data, expected " ++
    toString expected ++ " bytes, received " ++ toString received ++ " bytes"

/-- The message of the excess-data rejection (`modelRegistryServer.go:188`);
in the source this branch is unreachable, see `receiveLoop`. -/
def moreDataMessage (expected received : Nat) : String :=
  "received more data than expected, expected " ++ toString expected ++
    " bytes, received " ++ toString received ++ " bytes"

/-- The message of the hash-mismatch rejection (`modelRegistryServer.go:203`). -/
def hashMismatchMessage (expected received : String) : String :=
  "received data did not match the expected hash, expected " ++
    goQuote expected ++ ", received " ++ goQuote received

/-- Embeds lines 200-222 of `modelRegistryServer.go`: hash computation and
verification after the stream is fully read, then the construction of the
`backend.VersionArgs` for `CreateOrUpdateModelVersion`.  `now` stands for
`time.Now()` as a nanosecond timestamp.  The source's composite literal omits
the `VersionNumber` field of `VersionArgs`, which in Go leaves it at the zero
value `0`. -/
def finishCreateVersion (now : Nat) (rvi : PbVersionInfo) (modelData : List Nat) :
    Except StatusError (String × VersionArgs) :=
  let receivedHash := ComputeSHA256Hash modelData
  if rvi.dataHash ≠ "" ∧ rvi.dataHash ≠ receivedHash then
    .error ⟨.invalidArgument, hashMismatchMessage rvi.dataHash receivedHash⟩
  else
    let creationTimestamp := if rvi.creationTimestamp > 0 then rvi.creationTimestamp else now
    .ok (rvi.modelId,
      { versionNumber := 0
        creationTimestamp := creationTimestamp
        archived := rvi.archived
        dataHash := receivedHash
        data := modelData
        userData := rvi.userData })

/-- Embeds the receive loop of `CreateVersion` (`modelRegistryServer.go:177-198`),
accumulating `modelData`; the empty list is the `io.EOF` case.  At end-of-stream
the source checks `receivedDataSize == DataSize` and otherwise returns the
size-mismatch rejection from the `if err == io.EOF` guard; the source's
subsequent `receivedDataSize > DataSize` comparison (line 187) is unreachable,
because the guard before it returns for every mismatch. -/
def receiveLoop (now : Nat) (rvi : PbVersionInfo) (modelData : List Nat) :
    List CreateVersionRequestChunk → Except StatusError (String × VersionArgs)
  | [] =>
    if modelData.length = rvi.dataSize then
      finishCreateVersion now rvi modelData
    else
      .error ⟨.invalidArgument, sizeMismatchMessage rvi.dataSize modelData.length⟩
  | chunk :: rest =>
    match chunk.body with
    | none => .error ⟨.invalidArgument, "subsequent request chunk do not include a Body"⟩
    | some dataChunk => receiveLoop now rvi (modelData ++ dataChunk) rest

/-- Embeds `CreateVersion` up to the backend call (`modelRegistryServer.go:159-222`):
on success it returns the pair passed to `b.CreateOrUpdateModelVersion`
(the model id and the `VersionArgs`); on rejection the status error returned
before any backend call. -/
def createVersion (now : Nat) (stream : List CreateVersionRequestChunk) :
    Except StatusError (String × VersionArgs) :=
  match stream with
  | [] => .error ⟨.invalidArgument, "empty request"⟩
  | firstChunk :: rest =>
    match firstChunk.header with
    | none => .error ⟨.invalidArgument, "first request chunk do not include a Header"⟩
    | some receivedVersionInfo => receiveLoop now receivedVersionInfo [] rest

/-- Embeds the error mapping of the backend call in `CreateVersion`
(`modelRegistryServer.go:223-225`): every backend error becomes an internal
status, with no special case for the typed not-found errors. -/
def createVersionMapErr (modelId : String) (e : BackendError) : StatusError :=
  ⟨.internal, "unexpected error while creating a version for model " ++
    goQuote modelId ++ ": " ++ backendErrorMessage e⟩

/-- The full `CreateVersion` RPC, parametric over the backend's
`CreateOrUpdateModelVersion`. -/
def createVersionRPC (doCreate : String → VersionArgs → Except BackendError VersionInfo)
    (now : Nat) (stream : List CreateVersionRequestChunk) : Except StatusError PbVersionInfo :=
  match createVersion now stream with
  | .error e => .error e
  | .ok (modelId, args) =>
    match doCreate modelId args with
    | .error err => .error (createVersionMapErr modelId err)
    | .ok vi => .ok (createPbModelVersionInfo vi)

/-- Helper for stating the claims: a well-formed stream made of one header
chunk followed by body chunks. -/
def chunkStream (rvi : PbVersionInfo) (bodies : List (List Nat)) :
    List CreateVersionRequestChunk :=
  ⟨some rvi, none⟩ :: bodies.map (fun b => ⟨none, some b⟩)

/-! ### Spec-modelled backend

The concrete backends (memory, db) are not under `src/`; claims about what a
backend does with the `VersionArgs` it receives are settled against a model of
spec section 4.1. -/

/-- One stored version record of the spec-modelled backend. -/
structure StoredVersion where
  versionNumber : Nat
  creationTimestamp : Nat
  archived : Bool
  dataHash : String
  data : List Nat
  userData : List (String × String)
  deriving Repr, DecidableEq

/-- State of one model in the spec-modelled backend. -/
structure SpecModel where
  modelID : String
  latestVersionNumber : Nat
  versions : List StoredVersion
  deriving Repr, DecidableEq

/-- Modelled from the spec: `CreateOrUpdateModelVersion` of the concrete
backends is not under `src/`.  Spec section 4.1: if `args.VersionNumber` is 0
the next sequential number (`LatestVersionNumber + 1`) is assigned; if it
matches an existing version that version's record (metadata and payload) is
replaced; afterwards `LatestVersionNumber` is the max of its previous value
and the new version's number. -/
def specCreateOrUpdateModelVersion (m : SpecModel) (args : VersionArgs) :
    SpecModel × VersionInfo :=
  let vn := if args.versionNumber = 0 then m.latestVersionNumber + 1 else args.versionNumber
  let stored : StoredVersion :=
    { versionNumber := vn
      creationTimestamp := args.creationTimestamp
      archived := args.archived
      dataHash := args.dataHash
      data := args.data
      userData := args.userData }
  let versions :=
    if m.versions.any (fun v => v.versionNumber = vn) then
      m.versions.map (fun v => if v.versionNumber = vn then stored else v)
    else
      m.versions ++ [stored]
  ({ m with latestVersionNumber := max m.latestVersionNumber vn, versions := versions },
   { modelID := m.modelID
     versionNumber := vn
     creationTimestamp := args.creationTimestamp
     archived := args.archived
     dataHash := args.dataHash
     dataSize := args.data.length
     userData := args.userData })

/-- The `CreateVersion` RPC running against the spec-modelled backend state of
the addressed model: a rejected upload returns its status error with the state
untouched, a validated upload hands the `VersionArgs` to the backend. -/
def createVersionRPCOnModel (st : SpecModel) (now : Nat)
    (stream : List CreateVersionRequestChunk) :
    SpecModel × Except StatusError VersionInfo :=
  match createVersion now stream with
  | .error e => (st, .error e)
  | .ok (_, args) =>
    let r := specCreateOrUpdateModelVersion st args
    (r.1, .ok r.2)

/-! ### Error mapping of the other handlers -/

/-- Embeds the error mapping of `DeleteModel` (`modelRegistryServer.go:90-96`):
only `*backend.UnknownModelError` becomes not-found, everything else internal. -/
def deleteModelMapErr (modelId : String) (e : BackendError) : StatusError :=
  match e with
  | .unknownModel _ => ⟨.notFound, backendErrorMessage e⟩
  | _ => ⟨.internal, "unexpected error while deleting model " ++ goQuote modelId ++
      ": " ++ backendErrorMessage e⟩

/-- Embeds the error mapping of the per-id lookup loop of `RetrieveModels`
(`modelRegistryServer.go:139-144`). -/
def retrieveModelsLookupMapErr (e : BackendError) : StatusError :=
  match e with
  | .unknownModel _ => ⟨.notFound, backendErrorMessage e⟩
  | _ => ⟨.internal, "unexpected error while retrieving models: " ++ backendErrorMessage e⟩

/-- Embeds the error mapping of the per-number lookup loop of
`RetrieveVersionInfos` (`modelRegistryServer.go:282-289`). -/
def retrieveVersionInfosLookupMapErr (modelId : String) (versionNumber : Nat)
    (e : BackendError) : StatusError :=
  match e with
  | .unknownModel _ => ⟨.notFound, backendErrorMessage e⟩
  | .unknownModelVersion _ _ => ⟨.notFound, backendErrorMessage e⟩
  | _ => ⟨.internal, "unexpected error while retrieving version " ++
      goQuote (toString versionNumber) ++ " for model " ++ goQuote modelId ++
      ": " ++ backendErrorMessage e⟩

/-- Embeds the error mapping of `RetrieveVersionData`
(`modelRegistryServer.go:312-320`). -/
def retrieveVersionDataMapErr (modelId : String) (versionNumber : Nat)
    (e : BackendError) : StatusError :=
  match e with
  | .unknownModel _ => ⟨.notFound, backendErrorMessage e⟩
  | .unknownModelVersion _ _ => ⟨.notFound, backendErrorMessage e⟩
  | _ => ⟨.internal, "unexpected error while retrieving version " ++
      goQuote (toString versionNumber) ++ " for model " ++ goQuote modelId ++
      ": " ++ backendErrorMessage e⟩

/-! ### RetrieveVersionData chunking (`modelRegistryServer.go:303-341`) -/

/-- Embeds the send loop of `RetrieveVersionData`
(`modelRegistryServer.go:327-338`): index `i` steps by the configured chunk
size; once `i + chunkSize >= dataLen` the slice `modelData[i:dataLen]` is sent
and the next loop test fails, otherwise `modelData[i : i+chunkSize]` is sent.
Structural recursion needs a fuel argument; `modelData.length` is enough fuel
whenever `chunkSize > 0` (for `chunkSize = 0` the Go loop never terminates, so
the model is only meaningful for a positive configured chunk size). -/
def chunkGo (chunkSize : Nat) (modelData : List Nat) : Nat → Nat → List (List Nat)
  | 0, _ => []
  | fuel + 1, i =>
    if i < modelData.length then
      if modelData.length ≤ i + chunkSize then
        [modelData.drop i]
      else
        (modelData.drop i).take chunkSize :: chunkGo chunkSize modelData fuel (i + chunkSize)
    else []

/-- Embeds the reply stream of `RetrieveVersionData` after a successful backend
fetch (`modelRegistryServer.go:322-340`): an empty payload yields exactly one
empty chunk, otherwise the send loop starting at index 0. -/
def retrieveVersionDataChunks (chunkSize : Nat) (modelData : List Nat) : List (List Nat) :=
  if modelData.length = 0 then [[]]
  else chunkGo chunkSize modelData modelData.length 0

/-! ### RetrieveModels / RetrieveVersionInfos (`modelRegistryServer.go:101-157, 231-301`) -/

/-- Outcome of a handler once Go runtime panics are modelled explicitly:
`panicked` stands for an out-of-range slice expression aborting the handler. -/
inductive HandlerOutcome (α : Type) where
  | panicked
  | err (e : StatusError)
  | ok (a : α)
  deriving Repr, DecidableEq

/-- Embeds the Go slice expression `l[low:]`: it panics unless
`0 <= low <= len(l)`. -/
def goSliceFrom (l : List α) (low : Int) : Option (List α) :=
  if 0 ≤ low ∧ low ≤ l.length then some (l.drop low.toNat) else none

/-- Embeds the Go slice expression `l[:high]` for a slice whose capacity equals
its length (as holds for the protobuf-decoded request slices): it panics unless
`high <= len(l)`. -/
def goSliceTo (l : List α) (high : Nat) : Option (List α) :=
  if high ≤ l.length then some (l.take high) else none

/-- Embeds `grpcapi.ModelInfo` as used in the `RetrieveModels` reply. -/
structure PbModelInfo where
  modelId : String
  userData : List (String × String)
  deriving Repr, DecidableEq

/-- Embeds the per-id resolution loop of the explicit-ids branch of
`RetrieveModels` (`modelRegistryServer.go:137-148`); the first failing lookup
aborts the whole call with its mapped status. -/
def resolveModelIds (lookup : String → Except BackendError ModelInfo) :
    List String → Except StatusError (List PbModelInfo)
  | [] => .ok []
  | modelID :: rest =>
    match lookup modelID with
    | .error e => .error (retrieveModelsLookupMapErr e)
    | .ok modelInfo =>
      match resolveModelIds lookup rest with
      | .error e => .error e
      | .ok pbs => .ok (⟨modelInfo.modelID, modelInfo.userData⟩ :: pbs)

/-- Embeds the explicit-ids branch of `RetrieveModels`
(`modelRegistryServer.go:132-156`): slice the client-supplied id list by the
decoded cursor offset (`ParseInt`, so possibly negative), cap it by
`ModelsCount` when positive, resolve each id, and return the reply together
with the next cursor `offset + len(result)`. -/
def retrieveModelsExplicit (lookup : String → Except BackendError ModelInfo)
    (modelIds : List String) (modelsCount : Nat) (offset : Int) :
    HandlerOutcome (List PbModelInfo × String) :=
  match goSliceFrom modelIds offset with
  | none => .panicked
  | some fromOffset =>
    match (if modelsCount > 0 then goSliceTo fromOffset modelsCount else some fromOffset) with
    | none => .panicked
    | some modelIDsSlice =>
      match resolveModelIds lookup modelIDsSlice with
      | .error e => .err e
      | .ok pbModelInfos =>
        .ok (pbModelInfos, toString (offset + pbModelInfos.length))

/-- Embeds the sequential-scan branch of `RetrieveVersionInfos`
(`modelRegistryServer.go:249-272`) after a successful
`ListModelVersionInfos` call returning `versionInfos`: the reply carries the
converted infos and the cursor produced by the loop that re-assigns
`nextVersionNumber := versionInfo.VersionNumber + 1` for each returned info,
starting from the decoded handle. -/
def retrieveVersionInfosScanReply (initialVersionNumber : Nat)
    (versionInfos : List VersionInfo) : List PbVersionInfo × String :=
  (versionInfos.map createPbModelVersionInfo,
   toString (versionInfos.foldl (fun _ vi => vi.versionNumber + 1) initialVersionNumber))

/-- Embeds the per-number resolution loop of the explicit-numbers branch of
`RetrieveVersionInfos` (`modelRegistryServer.go:280-295`); the first failing
lookup aborts the whole call with its mapped status. -/
def resolveVersionNumbers (modelId : String)
    (lookup : Nat → Except BackendError VersionInfo) :
    List Nat → Except StatusError (List VersionInfo)
  | [] => .ok []
  | versionNumber :: rest =>
    match lookup versionNumber with
    | .error e => .error (retrieveVersionInfosLookupMapErr modelId versionNumber e)
    | .ok versionInfo =>
      match resolveVersionNumbers modelId lookup rest with
      | .error e => .error e
      | .ok vis => .ok (versionInfo :: vis)

/-- Embeds the explicit-numbers branch of `RetrieveVersionInfos`
(`modelRegistryServer.go:274-300`): slice the client-supplied number list by
the decoded handle (`ParseUint`, hence a `Nat`), cap it by `VersionsCount`
when positive, resolve each number, and return the converted infos with the
cursor produced by the `nextVersionNumber` loop. -/
def retrieveVersionInfosExplicit (modelId : String)
    (lookup : Nat → Except BackendError VersionInfo) (versionNumbers : List Nat)
    (versionsCount : Nat) (initialVersionNumber : Nat) :
    HandlerOutcome (List PbVersionInfo × String) :=
  match goSliceFrom versionNumbers initialVersionNumber with
  | none => .panicked
  | some fromInitial =>
    match (if versionsCount > 0 then goSliceTo fromInitial versionsCount else some fromInitial) with
    | none => .panicked
    | some versionNumberSlice =>
      match resolveVersionNumbers modelId lookup versionNumberSlice with
      | .error e => .err e
      | .ok vis =>
        .ok (vis.map createPbModelVersionInfo,
          toString (vis.foldl (fun _ vi => vi.versionNumber + 1) initialVersionNumber))

/-! ### Helper lemmas -/

/-- Feeding a list of body-only chunks to the receive loop concatenates their
payloads onto the accumulator and then hits end-of-stream. -/
theorem receiveLoop_bodies (now : Nat) (rvi : PbVersionInfo) (acc : List Nat)
    (bodies : List (List Nat)) :
    receiveLoop now rvi acc (bodies.map (fun b => ⟨none, some b⟩)) =
      receiveLoop now rvi (acc ++ bodies.flatten) [] := by
  induction bodies generalizing acc with
  | nil => simp
  | cons b rest ih => simp [receiveLoop, ih, List.append_assoc]

/-- A successful run of the receive loop stores the digest of the assembled
buffer as the version's hash. -/
theorem receiveLoop_ok_hash (now : Nat) (rvi : PbVersionInfo) (acc : List Nat)
    (chunks : List CreateVersionRequestChunk) (modelId : String) (args : VersionArgs)
    (h : receiveLoop now rvi acc chunks = .ok (modelId, args)) :
    args.dataHash = ComputeSHA256Hash args.data := by
  induction chunks generalizing acc with
  | nil =>
    rw [receiveLoop] at h
    split at h
    · rw [finishCreateVersion] at h
      split at h
      · exact absurd h (by simp)
      · simp only [Except.ok.injEq, Prod.mk.injEq] at h
        rw [← h.2]
    · exact absurd h (by simp)
  | cons c rest ih =>
    rw [receiveLoop] at h
    split at h
    · exact absurd h (by simp)
    · exact ih _ h

/-! ### Claims C1, C2, C4, C5 -/

/-- C1: the claim says the requested `VersionNumber` of the CreateVersion
header is passed through to the backend, so re-uploading with an explicit
existing number replaces that version while `LatestVersionNumber` stays put.
The code instead omits `VersionNumber` from the `VersionArgs` composite
literal (`modelRegistryServer.go:216-222`), leaving it at Go's zero value 0:
at the failing input (a model whose latest version is 1, an upload header
requesting version 1 with different bytes) the backend receives
`VersionNumber = 0`, assigns the next sequential number, and the model ends
with `LatestVersionNumber = 2` and version 1 untouched. -/
theorem createVersion_drops_requested_version_number :
    createVersion 5 (chunkStream ⟨"m1", 1, 0, false, "", 1, []⟩ [[2]]) =
      .ok ("m1", ⟨0, 5, false, ComputeSHA256Hash [2], [2], []⟩) ∧
    (createVersionRPCOnModel ⟨"m1", 1, [⟨1, 1, false, ComputeSHA256Hash [1], [1], []⟩]⟩ 5
        (chunkStream ⟨"m1", 1, 0, false, "", 1, []⟩ [[2]])).1 =
      ⟨"m1", 2, [⟨1, 1, false, ComputeSHA256Hash [1], [1], []⟩,
                 ⟨2, 5, false, ComputeSHA256Hash [2], [2], []⟩]⟩ :=
  ⟨rfl, rfl⟩

/-- C2 (amended): at end-of-stream the accumulated byte count must equal the
declared `DataSize` exactly, and any mismatch — fewer bytes or more bytes —
is rejected with the same invalid-argument size-mismatch error at
end-of-stream; an excess is not detected before end-of-stream (the source's
dedicated more-data check is unreachable). -/
theorem createVersion_size_mismatch_only_at_eof (now : Nat) (rvi : PbVersionInfo)
    (bodies : List (List Nat))
    (h : (bodies.map List.length).sum ≠ rvi.dataSize) :
    createVersion now (chunkStream rvi bodies) =
      .error ⟨.invalidArgument,
        sizeMismatchMessage rvi.dataSize (bodies.map List.length).sum⟩ := by
  have hlen : bodies.flatten.length = (bodies.map List.length).sum :=
    List.length_flatten bodies
  simp [createVersion, chunkStream, receiveLoop_bodies, receiveLoop, hlen, h]

/-- Witness for `createVersion_size_mismatch_only_at_eof`: declared size 2,
one received byte. -/
theorem createVersion_size_mismatch_only_at_eof_witness :
    createVersion 0 (chunkStream ⟨"m1", 0, 0, false, "", 2, []⟩ [[7]]) =
      .error ⟨.invalidArgument, sizeMismatchMessage 2 1⟩ :=
  createVersion_size_mismatch_only_at_eof 0 ⟨"m1", 0, 0, false, "", 2, []⟩ [[7]]
    (by decide)

/-- C2 counterexample: with a declared size of 0, the running total exceeds
the declared size as soon as the single body byte arrives, yet the handler
keeps consuming the stream — it still inspects the next chunk (reporting
its missing body) instead of rejecting for excess, and at end-of-stream the
excess is rejected with the size-mismatch message, not the dedicated
more-data message. -/
theorem createVersion_excess_not_rejected_before_eof :
    createVersion 0 [⟨some ⟨"m1", 0, 0, false, "", 0, []⟩, none⟩,
        ⟨none, some [7]⟩, ⟨some ⟨"m1", 0, 0, false, "", 0, []⟩, none⟩] =
      .error ⟨.invalidArgument, "subsequent request chunk do not include a Body"⟩ ∧
    createVersion 0 [⟨some ⟨"m1", 0, 0, false, "", 0, []⟩, none⟩, ⟨none, some [7]⟩] =
      .error ⟨.invalidArgument, sizeMismatchMessage 0 1⟩ ∧
    sizeMismatchMessage 0 1 ≠ moreDataMessage 0 1 :=
  ⟨rfl, rfl, by decide⟩

/-- C4: a completed upload stores the computed digest of the assembled buffer
regardless of the declared hash, and a declared non-empty hash that differs
from the computed one is rejected as invalid-argument. -/
theorem createVersion_hash_verified :
    (∀ (now : Nat) (stream : List CreateVersionRequestChunk) (modelId : String)
        (args : VersionArgs), createVersion now stream = .ok (modelId, args) →
        args.dataHash = ComputeSHA256Hash args.data) ∧
    (∀ (now : Nat) (rvi : PbVersionInfo) (bodies : List (List Nat)),
        (bodies.map List.length).sum = rvi.dataSize → rvi.dataHash ≠ "" →
        rvi.dataHash ≠ ComputeSHA256Hash bodies.flatten →
        createVersion now (chunkStream rvi bodies) =
          .error ⟨.invalidArgument,
            hashMismatchMessage rvi.dataHash (ComputeSHA256Hash bodies.flatten)⟩) := by
  constructor
  · intro now stream modelId args h
    match stream with
    | [] => exact absurd h (by simp [createVersion])
    | firstChunk :: rest =>
      rw [createVersion] at h
      split at h
      · exact absurd h (by simp)
      · exact receiveLoop_ok_hash now _ [] rest modelId args h
  · intro now rvi bodies hsum hne hneq
    have hlen : bodies.flatten.length = (bodies.map List.length).sum :=
      List.length_flatten bodies
    simp [createVersion, chunkStream, receiveLoop_bodies, receiveLoop, hlen, hsum,
      finishCreateVersion, hne, hneq]

/-- Witness for `createVersion_hash_verified`: a mismatching declared hash is
rejected, and a successful upload with no declared hash stores the computed
digest. -/
theorem createVersion_hash_verified_witness :
    createVersion 0 (chunkStream ⟨"m1", 0, 0, false, "deadbeef", 1, []⟩ [[3]]) =
      .error ⟨.invalidArgument,
        hashMismatchMessage "deadbeef" (ComputeSHA256Hash [3])⟩ ∧
    (⟨0, 0, false, ComputeSHA256Hash [3], [3], []⟩ : VersionArgs).dataHash =
      ComputeSHA256Hash (⟨0, 0, false, ComputeSHA256Hash [3], [3], []⟩ : VersionArgs).data :=
  ⟨createVersion_hash_verified.2 0 ⟨"m1", 0, 0, false, "deadbeef", 1, []⟩ [[3]]
      (by decide) (by decide) (by decide),
   createVersion_hash_verified.1 0 (chunkStream ⟨"m1", 0, 0, false, "", 1, []⟩ [[3]])
      "m1" ⟨0, 0, false, ComputeSHA256Hash [3], [3], []⟩ rfl⟩

/-- C5: whenever a CreateVersion upload is rejected by validation, the
backend's `CreateOrUpdateModelVersion` is never invoked: the RPC on any
backend state returns the rejection with the state unchanged. -/
theorem createVersion_rejected_backend_untouched (st : SpecModel) (now : Nat)
    (stream : List CreateVersionRequestChunk) (e : StatusError)
    (h : createVersion now stream = .error e) :
    createVersionRPCOnModel st now stream = (st, .error e) := by
  simp [createVersionRPCOnModel, h]

/-- Witness for `createVersion_rejected_backend_untouched`: the empty stream is
rejected and leaves the backend state untouched. -/
theorem createVersion_rejected_backend_untouched_witness :
    createVersion 0 [] = .error ⟨.invalidArgument, "empty request"⟩ ∧
    createVersionRPCOnModel ⟨"m1", 0, []⟩ 0 [] =
      (⟨"m1", 0, []⟩, .error ⟨.invalidArgument, "empty request"⟩) :=
  ⟨rfl, createVersion_rejected_backend_untouched ⟨"m1", 0, []⟩ 0 []
    ⟨.invalidArgument, "empty request"⟩ rfl⟩

/-- Embeds the error mapping of `CreateOrUpdateModel`
(`modelRegistryServer.go:74-77`): every backend error becomes internal. -/
def createOrUpdateModelMapErr (modelId : String) (e : BackendError) : StatusError :=
  ⟨.internal, "unexpected error while creating model " ++ goQuote modelId ++
    ": " ++ backendErrorMessage e⟩

/-- C3 counterexample: for the CreateVersion RPC an `UnknownModel` backend
error is mapped to internal, not to not-found: the full pipeline on a backend
failing with `UnknownModel` returns an internal status. -/
theorem createVersion_unknownModel_not_notFound :
    (createVersionMapErr "m1" (.unknownModel "m1")).code = GrpcCode.internal ∧
    GrpcCode.internal ≠ GrpcCode.notFound ∧
    createVersionRPC (fun modelId _ => .error (.unknownModel modelId)) 0
        (chunkStream ⟨"m1", 0, 0, false, "", 0, []⟩ []) =
      .error ⟨.internal,
        "unexpected error while creating a version for model \"m1\": no model \"m1\" found"⟩ :=
  ⟨rfl, by decide, rfl⟩

/-- Appending to the empty string is the identity, stated in the direction the
mapping lemma needs. -/
theorem string_eq_empty_append (s : String) : s = "" ++ s := by simp

/-- C3 (amended): `DeleteModel` and the explicit-ids loop of `RetrieveModels`
map `UnknownModel` to not-found; `RetrieveVersionInfos` and
`RetrieveVersionData` map both `UnknownModel` and `UnknownModelVersion` to
not-found; every other backend error in those RPCs — and every backend error
in `CreateVersion` and `CreateOrUpdateModel`, the typed not-found errors
included — is mapped to internal; in every case the status message contains
the original backend error text (not-found statuses carry it verbatim,
internal statuses append it to a context prefix). -/
theorem backend_error_status_mapping (modelId : String) (versionNumber : Nat)
    (e : BackendError) :
    ((deleteModelMapErr modelId e).code = match e with
      | .unknownModel _ => .notFound
      | _ => .internal) ∧
    ((retrieveModelsLookupMapErr e).code = match e with
      | .unknownModel _ => .notFound
      | _ => .internal) ∧
    ((retrieveVersionInfosLookupMapErr modelId versionNumber e).code = match e with
      | .unknownModel _ => .notFound
      | .unknownModelVersion _ _ => .notFound
      | _ => .internal) ∧
    ((retrieveVersionDataMapErr modelId versionNumber e).code = match e with
      | .unknownModel _ => .notFound
      | .unknownModelVersion _ _ => .notFound
      | _ => .internal) ∧
    ((createVersionMapErr modelId e).code = .internal) ∧
    ((createOrUpdateModelMapErr modelId e).code = .internal) ∧
    (∃ p, (deleteModelMapErr modelId e).msg = p ++ backendErrorMessage e) ∧
    (∃ p, (retrieveModelsLookupMapErr e).msg = p ++ backendErrorMessage e) ∧
    (∃ p, (retrieveVersionInfosLookupMapErr modelId versionNumber e).msg =
      p ++ backendErrorMessage e) ∧
    (∃ p, (retrieveVersionDataMapErr modelId versionNumber e).msg =
      p ++ backendErrorMessage e) ∧
    (∃ p, (createVersionMapErr modelId e).msg = p ++ backendErrorMessage e) ∧
    (∃ p, (createOrUpdateModelMapErr modelId e).msg = p ++ backendErrorMessage e) := by
  cases e with
  | unknownModel m =>
    exact ⟨rfl, rfl, rfl, rfl, rfl, rfl, ⟨"", string_eq_empty_append _⟩, ⟨"", string_eq_empty_append _⟩, ⟨"", string_eq_empty_append _⟩,
      ⟨"", string_eq_empty_append _⟩, ⟨_, rfl⟩, ⟨_, rfl⟩⟩
  | unknownModelVersion m n =>
    exact ⟨rfl, rfl, rfl, rfl, rfl, rfl, ⟨_, rfl⟩, ⟨_, rfl⟩, ⟨"", string_eq_empty_append _⟩,
      ⟨"", string_eq_empty_append _⟩, ⟨_, rfl⟩, ⟨_, rfl⟩⟩
  | other m =>
    exact ⟨rfl, rfl, rfl, rfl, rfl, rfl, ⟨_, rfl⟩, ⟨_, rfl⟩, ⟨_, rfl⟩,
      ⟨_, rfl⟩, ⟨_, rfl⟩, ⟨_, rfl⟩⟩

/-- Properties of the send loop of `RetrieveVersionData`: starting at an index
`i` inside the payload with enough fuel, the emitted fragments concatenate to
the suffix `modelData.drop i`, at least one fragment is emitted, every
fragment except the last has exactly `chunkSize` bytes, and the last fragment
is non-empty with at most `chunkSize` bytes. -/
theorem chunkGo_spec (chunkSize : Nat) (modelData : List Nat) (hcs : 0 < chunkSize) :
    ∀ (fuel i : Nat), i < modelData.length → modelData.length - i ≤ fuel →
      (chunkGo chunkSize modelData fuel i).flatten = modelData.drop i ∧
      chunkGo chunkSize modelData fuel i ≠ [] ∧
      (∀ f ∈ (chunkGo chunkSize modelData fuel i).dropLast, f.length = chunkSize) ∧
      (∀ f, (chunkGo chunkSize modelData fuel i).getLast? = some f →
        0 < f.length ∧ f.length ≤ chunkSize) := by
  intro fuel
  induction fuel with
  | zero =>
    intro i hi hfuel
    exact absurd hfuel (by omega)
  | succ fuel ih =>
    intro i hi hfuel
    rw [chunkGo, if_pos hi]
    by_cases hle : modelData.length ≤ i + chunkSize
    · rw [if_pos hle]
      refine ⟨by simp, by simp, by simp, ?_⟩
      intro f hf
      simp only [List.getLast?_singleton, Option.some.injEq] at hf
      subst hf
      constructor
      · simp only [List.length_drop]; omega
      · simp only [List.length_drop]; omega
    · rw [if_neg hle]
      have hi' : i + chunkSize < modelData.length := Nat.lt_of_not_le hle
      obtain ⟨hjoin, hne, hmid, hlast⟩ := ih (i + chunkSize) hi' (by omega)
      obtain ⟨b, t, hbt⟩ := List.exists_cons_of_ne_nil hne
      refine ⟨?_, by simp, ?_, ?_⟩
      · rw [List.flatten_cons, hjoin, ← List.drop_drop, List.take_append_drop]
      · intro f hf
        rw [hbt] at hf
        simp only [List.dropLast_cons₂, List.mem_cons] at hf
        rcases hf with hf | hf
        · subst hf
          rw [List.length_take, List.length_drop]
          omega
        · apply hmid
          rw [hbt]
          exact hf
      · intro f hf
        rw [hbt, List.getLast?_cons_cons] at hf
        apply hlast
        rw [hbt]
        exact hf

/-- C6: for a non-empty payload the emitted fragments concatenate in order to
exactly the stored payload, every fragment except the final one has length
equal to the configured chunk size, and the final fragment is non-empty with
at most chunk-size bytes (the remainder; a full chunk when the payload length
is an exact multiple). -/
theorem retrieveVersionData_chunking (chunkSize : Nat) (modelData : List Nat)
    (hcs : 0 < chunkSize) (hne : modelData ≠ []) :
    (retrieveVersionDataChunks chunkSize modelData).flatten = modelData ∧
    retrieveVersionDataChunks chunkSize modelData ≠ [] ∧
    (∀ f ∈ (retrieveVersionDataChunks chunkSize modelData).dropLast,
      f.length = chunkSize) ∧
    (∀ f, (retrieveVersionDataChunks chunkSize modelData).getLast? = some f →
      0 < f.length ∧ f.length ≤ chunkSize) := by
  have hlen : 0 < modelData.length := List.length_pos.mpr hne
  have h := chunkGo_spec chunkSize modelData hcs modelData.length 0 hlen (by omega)
  rw [retrieveVersionDataChunks, if_neg (by omega)]
  simpa using h

/-- Witness for `retrieveVersionData_chunking`: chunk size 2 on a 3-byte
payload gives one full fragment and a 1-byte remainder. -/
theorem retrieveVersionData_chunking_witness :
    (retrieveVersionDataChunks 2 [3, 4, 5]).flatten = [3, 4, 5] ∧
    retrieveVersionDataChunks 2 [3, 4, 5] ≠ [] ∧
    (∀ f ∈ (retrieveVersionDataChunks 2 [3, 4, 5]).dropLast, f.length = 2) ∧
    (∀ f, (retrieveVersionDataChunks 2 [3, 4, 5]).getLast? = some f →
      0 < f.length ∧ f.length ≤ 2) :=
  retrieveVersionData_chunking 2 [3, 4, 5] (by decide) (by decide)

/-- C7: a zero-length stored payload yields exactly one fragment, and that
fragment is empty — never zero fragments. -/
theorem retrieveVersionData_empty_payload (chunkSize : Nat) :
    retrieveVersionDataChunks chunkSize [] = [[]] := rfl

/-- The `nextVersionNumber` accumulation loop of `RetrieveVersionInfos`
computes the last returned version number plus one, or keeps the initial
number when nothing was returned. -/
theorem foldl_nextVersionNumber (vis : List VersionInfo) (initial : Nat) :
    vis.foldl (fun _ vi => vi.versionNumber + 1) initial =
      (match vis.getLast? with
       | some vi => vi.versionNumber + 1
       | none => initial) := by
  induction vis generalizing initial with
  | nil => rfl
  | cons v rest ih =>
    rw [List.foldl_cons, ih]
    cases rest with
    | nil => rfl
    | cons b t =>
      rw [List.getLast?_cons_cons]
      obtain ⟨x, hx⟩ :=
        Option.isSome_iff_exists.mp (List.getLast?_isSome.mpr (List.cons_ne_nil b t))
      rw [hx]

/-- C8 (amended): for a successful `RetrieveVersionInfos` call the returned
cursor is the decimal string of the last returned version number plus one when
at least one version is returned, and the decimal string of the decoded
initial version number when the result list is empty — in both the
sequential-scan and the explicit-version-numbers mode. -/
theorem retrieveVersionInfos_next_handle (modelId : String)
    (lookup : Nat → Except BackendError VersionInfo) (versionNumbers : List Nat)
    (versionsCount initial : Nat) (pbs : List PbVersionInfo) (handle : String)
    (h : retrieveVersionInfosExplicit modelId lookup versionNumbers versionsCount initial =
      .ok (pbs, handle)) :
    (∀ (backendList : List VersionInfo),
      (retrieveVersionInfosScanReply initial backendList).2 =
        toString (match backendList.getLast? with
          | some vi => vi.versionNumber + 1
          | none => initial)) ∧
    (∃ vis : List VersionInfo, pbs = vis.map createPbModelVersionInfo ∧
      handle = toString (match vis.getLast? with
        | some vi => vi.versionNumber + 1
        | none => initial)) := by
  constructor
  · intro backendList
    rw [retrieveVersionInfosScanReply, foldl_nextVersionNumber]
  · rw [retrieveVersionInfosExplicit] at h
    split at h
    · exact absurd h (by simp)
    · split at h
      · exact absurd h (by simp)
      · split at h
        · exact absurd h (by simp)
        · rename_i vis hres
          simp only [HandlerOutcome.ok.injEq, Prod.mk.injEq] at h
          exact ⟨vis, h.1.symm,
            by rw [← h.2, foldl_nextVersionNumber]⟩

/-- Witness for `retrieveVersionInfos_next_handle`: two explicit version
numbers resolved against a backend that returns them verbatim give the cursor
`"5"`. -/
theorem retrieveVersionInfos_next_handle_witness :
    (∀ (backendList : List VersionInfo),
      (retrieveVersionInfosScanReply 0 backendList).2 =
        toString (match backendList.getLast? with
          | some vi => vi.versionNumber + 1
          | none => 0)) ∧
    (∃ vis : List VersionInfo,
      [⟨"m1", 3 % 2 ^ 32, 0, false, "", 0, []⟩,
       ⟨"m1", 4 % 2 ^ 32, 0, false, "", 0, []⟩] = vis.map createPbModelVersionInfo ∧
      "5" = toString (match vis.getLast? with
        | some vi => vi.versionNumber + 1
        | none => 0)) :=
  retrieveVersionInfos_next_handle "m1" (fun vn => .ok ⟨"m1", vn, 0, false, "", 0, []⟩)
    [3, 4] 0 0
    [⟨"m1", 3 % 2 ^ 32, 0, false, "", 0, []⟩, ⟨"m1", 4 % 2 ^ 32, 0, false, "", 0, []⟩]
    "5" rfl

/-- C8 counterexample: a successful sequential-scan call returning no versions
(initial version number 5, empty backend result) carries cursor `"5"`, yet no
returned version exists whose number plus one could produce that cursor — the
empty-result cursor is the decoded handle, not "last returned plus one". -/
theorem retrieveVersionInfos_empty_result_cursor :
    (retrieveVersionInfosScanReply 5 []).1 = [] ∧
    (retrieveVersionInfosScanReply 5 []).2 = "5" ∧
    ¬ ∃ pb ∈ (retrieveVersionInfosScanReply 5 []).1,
        (retrieveVersionInfosScanReply 5 []).2 = toString (pb.versionNumber + 1) := by
  refine ⟨rfl, rfl, ?_⟩
  rintro ⟨pb, hpb, -⟩
  simp [retrieveVersionInfosScanReply] at hpb

/-- The two wordings of `UnknownModelVersionError.Error()` can never coincide:
one starts with `model`, the other with `no version`. -/
theorem noVersionYet_ne_missing (modelID : String) (n : Int) :
    noVersionYetMessage modelID ≠ missingVersionMessage modelID n := by
  intro h
  have hd := congrArg String.data h
  simp only [noVersionYetMessage, missingVersionMessage, goQuote,
    String.data_append, List.append_assoc] at hd
  simp only [List.cons_append, List.cons.injEq] at hd
  exact absurd hd.1 (by decide)

/-- C9: the `UnknownModelVersion` error message uses the distinct
no-version-yet wording exactly when the requested version number is at most 0,
otherwise it names the specific missing version number, and version 0 in
particular yields the no-version-yet variant. -/
theorem unknownModelVersion_message_variants (modelID : String) (versionNumber : Int) :
    (unknownModelVersionErrorMessage modelID versionNumber = noVersionYetMessage modelID ↔
      versionNumber ≤ 0) ∧
    (unknownModelVersionErrorMessage modelID versionNumber =
      if versionNumber ≤ 0 then noVersionYetMessage modelID
      else missingVersionMessage modelID versionNumber) ∧
    unknownModelVersionErrorMessage modelID 0 = noVersionYetMessage modelID := by
  refine ⟨⟨?_, ?_⟩, rfl, rfl⟩
  · intro h
    by_contra hn
    rw [unknownModelVersionErrorMessage, if_neg hn] at h
    exact noVersionYet_ne_missing modelID versionNumber h.symm
  · intro h
    rw [unknownModelVersionErrorMessage, if_pos h]

/-- C10: the claim says the slicing of the client-supplied lists stays within
bounds for all offset/count combinations, so the handlers never perform an
out-of-range access.  The code instead panics: with two supplied model ids, a
requested count of 5 makes `modelIDsSlice[:req.ModelsCount]` go out of range,
an offset token `"3"` makes `req.ModelIds[offset:]` go out of range, and the
analogous count overrun panics in `RetrieveVersionInfos` — in each case the
handler aborts instead of returning a reply or a status error. -/
theorem retrieveModels_slicing_panics :
    retrieveModelsExplicit (fun modelID => .ok ⟨modelID, 0, []⟩) ["a", "b"] 5 0 =
      .panicked ∧
    retrieveModelsExplicit (fun modelID => .ok ⟨modelID, 0, []⟩) ["a", "b"] 0 3 =
      .panicked ∧
    retrieveVersionInfosExplicit "m1" (fun vn => .ok ⟨"m1", vn, 0, false, "", 0, []⟩)
      [1, 2] 5 0 = .panicked :=
  ⟨rfl, rfl, rfl⟩

end ModelRegistry
